import Mathlib

/-!
Verification of the CP2K output-parser core of `electronic-parsers`
(`src/electronicparsers/cp2k/parser.py`): the unit-expression resolver
`resolve_unit`, the cross-file frame correlator
(`TrajParser.get_trajectory`, `CP2KParser.get_velocities` /
`get_trajectory` / `get_lattice_vectors` / `get_md_output`,
`parse_calculations`), and the input-tree node `InpValue.add`.

Python strings are modelled as `List Char`; Python `int` and `float` are
modelled as `Int` and `Rat` (all float arithmetic exercised here is exact
on rationals; a non-integer exponent, which no analysed input produces,
is mapped to an error value).  A `pint` unit/quantity is modelled as a
rational magnitude together with an integer exponent vector over the
atomic units appearing in `units_map`.  A raised Python exception is the
value `PyVal.err`; exception propagation is modelled by error absorption
(every operation on an error yields that error) plus explicit
short-circuits where a computed value would otherwise be discarded.
-/

namespace CP2K

/-- Exponent vector over the atomic `pint` units used by `units_map`
(`ureg.hbar`, `ureg.hartree`, `ureg.angstrom`, `ureg.femtosecond`,
`ureg.kelvin`).  `au_t = ureg.hbar / ureg.hartree` has vector
`(1, -1, 0, 0, 0)`. -/
structure UVec where
  hbar : Int
  hartree : Int
  angstrom : Int
  fs : Int
  kelvin : Int
deriving DecidableEq, Repr

def UVec.add (a b : UVec) : UVec :=
  ⟨a.hbar + b.hbar, a.hartree + b.hartree, a.angstrom + b.angstrom,
   a.fs + b.fs, a.kelvin + b.kelvin⟩

def UVec.sub (a b : UVec) : UVec :=
  ⟨a.hbar - b.hbar, a.hartree - b.hartree, a.angstrom - b.angstrom,
   a.fs - b.fs, a.kelvin - b.kelvin⟩

def UVec.neg (a : UVec) : UVec :=
  ⟨-a.hbar, -a.hartree, -a.angstrom, -a.fs, -a.kelvin⟩

def UVec.smul (k : Int) (a : UVec) : UVec :=
  ⟨k * a.hbar, k * a.hartree, k * a.angstrom, k * a.fs, k * a.kelvin⟩

/-! ### Kernel-computable rational arithmetic

`Rat.mul`, `Rat.add`, `Rat.div` and `Rat.inv` are `@[irreducible]` in
this toolchain, so terms built from them cannot be evaluated by
`decide`/`rfl`.  The following equivalents are definitionally
computable; the lemmas `ratMul_eq`, `ratAdd_eq`, `ratDiv_eq` and
`ratPowNat_eq` certify that they agree with the standard operations. -/

def ratMul (a b : Rat) : Rat := mkRat (a.num * b.num) (a.den * b.den)

def ratAdd (a b : Rat) : Rat :=
  mkRat (a.num * (b.den : Int) + b.num * (a.den : Int)) (a.den * b.den)

def ratDiv (a b : Rat) : Rat :=
  let n := a.num * (b.den : Int)
  let d := (a.den : Int) * b.num
  if d < 0 then mkRat (-n) (-d).toNat else mkRat n d.toNat

def ratPowNat (a : Rat) : Nat → Rat
  | 0 => 1
  | n + 1 => ratMul (ratPowNat a n) a

/-- `a ^ z` for an integer exponent, as Python computes it on a nonzero
base (callers guard the `0 ** negative` case). -/
def ratZPowAux (a : Rat) (z : Int) : Rat :=
  if 0 ≤ z then ratPowNat a z.toNat else ratDiv 1 (ratPowNat a (-z).toNat)

theorem ratMul_eq (a b : Rat) : ratMul a b = a * b := by
  unfold ratMul
  rw [Rat.mkRat_eq_div]
  conv_rhs => rw [← Rat.num_div_den a, ← Rat.num_div_den b]
  rw [div_mul_div_comm]
  push_cast
  ring

theorem ratAdd_eq (a b : Rat) : ratAdd a b = a + b := by
  unfold ratAdd
  rw [Rat.mkRat_eq_div]
  conv_rhs => rw [← Rat.num_div_den a, ← Rat.num_div_den b]
  rw [div_add_div _ _ (by exact_mod_cast a.den_nz) (by exact_mod_cast b.den_nz)]
  push_cast
  ring

theorem ratDiv_eq (a b : Rat) : ratDiv a b = a / b := by
  rcases eq_or_ne b 0 with hb | hb
  · subst hb
    simp [ratDiv, Rat.mkRat_eq_div]
  · have hbn : b.num ≠ 0 := Rat.num_ne_zero.mpr hb
    have had : ((a.den : Rat)) ≠ 0 := by exact_mod_cast a.den_nz
    have hbd : ((b.den : Rat)) ≠ 0 := by exact_mod_cast b.den_nz
    have hbnq : ((b.num : Rat)) ≠ 0 := by exact_mod_cast hbn
    have key : ((a.num * (b.den : Int) : Int) : Rat) / ((a.den : Int) * b.num : Int) = a / b := by
      conv_rhs => rw [← Rat.num_div_den a, ← Rat.num_div_den b]
      push_cast
      field_simp
    by_cases hd : ((a.den : Int) * b.num) < 0
    · simp only [ratDiv, if_pos hd]
      rw [Rat.mkRat_eq_div]
      have hc : (((-((a.den : Int) * b.num)).toNat : Nat) : Rat) =
          ((-((a.den : Int) * b.num) : Int) : Rat) := by
        exact_mod_cast Int.toNat_of_nonneg (by omega)
      rw [hc, Int.cast_neg, Int.cast_neg, neg_div_neg_eq]
      exact key
    · simp only [ratDiv, if_neg hd]
      rw [Rat.mkRat_eq_div]
      have hc : ((((a.den : Int) * b.num).toNat : Nat) : Rat) =
          (((a.den : Int) * b.num : Int) : Rat) := by
        exact_mod_cast Int.toNat_of_nonneg (by omega)
      rw [hc]
      exact key

theorem ratPowNat_eq (a : Rat) (n : Nat) : ratPowNat a n = a ^ n := by
  induction n with
  | zero => rfl
  | succ n ih => rw [ratPowNat, ih, ratMul_eq, pow_succ]

theorem ratZPowAux_eq (a : Rat) (z : Int) : ratZPowAux a z = a ^ z := by
  unfold ratZPowAux
  split
  · rename_i hz
    rw [ratPowNat_eq, ← zpow_natCast, Int.toNat_of_nonneg hz]
  · rename_i hz
    rw [ratPowNat_eq, ratDiv_eq, one_div, ← zpow_natCast, Int.toNat_of_nonneg (by omega),
        ← zpow_neg, neg_neg]

/-- The value domain of `resolve_unit`: Python `int`, Python `float`
(exact-rational model), `pint` quantity (magnitude and unit exponent
vector), Python `str` (the degraded return for unbalanced parentheses),
Python `None` (the implicit fall-through return), and a raised Python
exception carrying its class name. -/
inductive PyVal where
  | intv (n : Int)
  | floatv (q : Rat)
  | quant (mag : Rat) (u : UVec)
  | strv (s : List Char)
  | nonev
  | err (m : String)
deriving DecidableEq, Repr

def PyVal.isErr : PyVal → Bool
  | .err _ => true
  | _ => false

/-- Python `*` on the value combinations reachable from `resolve_unit`.
`int * str` is Python string repetition.  `None` or `str` in any other
combination raises `TypeError`.  Errors are absorbed (a raised exception
propagates). -/
def pyMul : PyVal → PyVal → PyVal
  | .err m, _ => .err m
  | _, .err m => .err m
  | .intv a, .intv b => .intv (a * b)
  | .intv a, .floatv b => .floatv (ratMul (a : Rat) b)
  | .floatv a, .intv b => .floatv (ratMul a (b : Rat))
  | .floatv a, .floatv b => .floatv (ratMul a b)
  | .intv a, .quant m u => .quant (ratMul (a : Rat) m) u
  | .quant m u, .intv a => .quant (ratMul m (a : Rat)) u
  | .floatv a, .quant m u => .quant (ratMul a m) u
  | .quant m u, .floatv a => .quant (ratMul m a) u
  | .quant m u, .quant n v => .quant (ratMul m n) (u.add v)
  | .intv a, .strv s => .strv (List.flatten (List.replicate a.toNat s))
  | .strv s, .intv a => .strv (List.flatten (List.replicate a.toNat s))
  | _, _ => .err "TypeError"

/-- Python `/` on the combinations reachable from `resolve_unit`
(`int / int` is true division, yielding a float). -/
def pyDiv : PyVal → PyVal → PyVal
  | .err m, _ => .err m
  | _, .err m => .err m
  | .intv a, .intv b =>
      if b = 0 then .err "ZeroDivisionError" else .floatv (ratDiv (a : Rat) (b : Rat))
  | .intv a, .floatv b =>
      if b = 0 then .err "ZeroDivisionError" else .floatv (ratDiv (a : Rat) b)
  | .floatv a, .intv b =>
      if b = 0 then .err "ZeroDivisionError" else .floatv (ratDiv a (b : Rat))
  | .floatv a, .floatv b =>
      if b = 0 then .err "ZeroDivisionError" else .floatv (ratDiv a b)
  | .intv a, .quant m u =>
      if m = 0 then .err "ZeroDivisionError" else .quant (ratDiv (a : Rat) m) u.neg
  | .floatv a, .quant m u =>
      if m = 0 then .err "ZeroDivisionError" else .quant (ratDiv a m) u.neg
  | .quant m u, .intv a =>
      if a = 0 then .err "ZeroDivisionError" else .quant (ratDiv m (a : Rat)) u
  | .quant m u, .floatv a =>
      if a = 0 then .err "ZeroDivisionError" else .quant (ratDiv m a) u
  | .quant m u, .quant n v =>
      if n = 0 then .err "ZeroDivisionError" else .quant (ratDiv m n) (u.sub v)
  | _, _ => .err "TypeError"

/-- Rational base to integer power, raising `ZeroDivisionError` as Python
does for `0 ** negative`. -/
def ratZPow (q : Rat) (z : Int) : PyVal :=
  if q = 0 ∧ z < 0 then .err "ZeroDivisionError" else .floatv (ratZPowAux q z)

/-- Python `**` on the combinations reachable from `resolve_unit`.  A
non-integer exponent (never produced by the inputs analysed here) is
mapped to an error value, since its exact result is not rational. -/
def pyPow : PyVal → PyVal → PyVal
  | .err m, _ => .err m
  | _, .err m => .err m
  | .intv a, .intv b =>
      if 0 ≤ b then .intv (a ^ b.toNat)
      else if a = 0 then .err "ZeroDivisionError" else .floatv (ratZPowAux (a : Rat) b)
  | .intv a, .floatv q =>
      if q.den = 1 then ratZPow (a : Rat) q.num else .err "FloatPow"
  | .floatv a, .intv b => ratZPow a b
  | .floatv a, .floatv q =>
      if q.den = 1 then ratZPow a q.num else .err "FloatPow"
  | .quant m u, .intv b =>
      if m = 0 ∧ b < 0 then .err "ZeroDivisionError"
      else .quant (ratZPowAux m b) (u.smul b)
  | .quant m u, .floatv q =>
      if q.den = 1 then
        if m = 0 ∧ q.num < 0 then .err "ZeroDivisionError"
        else .quant (ratZPowAux m q.num) (u.smul q.num)
      else .err "FloatPow"
  | _, _ => .err "TypeError"

/-! ### Python string helpers (over `List Char`) -/

def pstr (s : String) : List Char := s.toList

/-- `str.lower()` (ASCII; all inputs here are ASCII). -/
def pyLower (s : List Char) : List Char := s.map Char.toLower

/-- `str.replace(" ", "")`. -/
def stripSpaces (s : List Char) : List Char := s.filter (fun c => c ≠ ' ')

/-- Index of the first occurrence of `pat` in `s` (like `str.find` for a
found substring), `none` if absent. -/
def findSub (pat : List Char) (s : List Char) : Option Nat :=
  match s with
  | [] => if pat = [] then some 0 else none
  | _ :: rest =>
      if pat.isPrefixOf s then some 0
      else (findSub pat rest).map (· + 1)

/-- `str.find(pat)`: first index or `-1`. -/
def pyFind (pat : List Char) (s : List Char) : Int :=
  match findSub pat s with
  | some i => (i : Int)
  | none => -1

/-- `str.rfind(c)` for a single character: last index or `-1`. -/
def pyRFindChar (c : Char) (s : List Char) : Int :=
  match ((List.range s.length).filter (fun i => s.get? i = some c)).getLast? with
  | some i => (i : Int)
  | none => -1

/-- `str.count(c)` for a single character. -/
def pyCountChar (c : Char) (s : List Char) : Nat := s.count c

/-- Python slice `s[:k]` (negative stop counts from the end). -/
def pySliceTo (k : Int) (s : List Char) : List Char :=
  if 0 ≤ k then s.take k.toNat else s.take ((s.length : Int) + k).toNat

/-- `str.split(sep)` for nonempty `sep`: non-overlapping, left to right. -/
def splitSubAux (fuel : Nat) (sep s : List Char) : List (List Char) :=
  match fuel with
  | 0 => [s]
  | fuel + 1 =>
      match findSub sep s with
      | none => [s]
      | some i =>
          if sep.length = 0 then [s]
          else s.take i :: splitSubAux fuel sep (s.drop (i + sep.length))

def pySplit (sep s : List Char) : List (List Char) :=
  splitSubAux (s.length + 1) sep s

/-- `str.replace(pat, repl)` for nonempty `pat`: replace every
non-overlapping occurrence, left to right. -/
def replaceSubAux (fuel : Nat) (pat repl s : List Char) : List Char :=
  match fuel with
  | 0 => s
  | fuel + 1 =>
      match findSub pat s with
      | none => s
      | some i =>
          if pat.length = 0 then s
          else s.take i ++ repl ++ replaceSubAux fuel pat repl (s.drop (i + pat.length))

def pyReplace (pat repl s : List Char) : List Char :=
  replaceSubAux (s.length + 1) pat repl s

def digitsToNat (ds : List Char) : Nat :=
  ds.foldl (fun a c => a * 10 + (c.toNat - '0'.toNat)) 0

/-- `float(s)` on the decimal grammar `[+|-] digits [. digits] [(e|E) [+|-] digits]`
(also `.digits` and `digits.`); `none` when `float()` would raise.
(`inf` / `nan` / underscore separators, which no analysed input uses,
are treated as unparseable.) -/
def parseFloat (s : List Char) : Option Rat :=
  let (sgn, s1) : Rat × List Char :=
    match s with
    | '+' :: r => (1, r)
    | '-' :: r => (-1, r)
    | r => (1, r)
  let intPart := s1.takeWhile Char.isDigit
  let rest1 := s1.dropWhile Char.isDigit
  let (hasDot, fracPart, rest2) : Bool × List Char × List Char :=
    match rest1 with
    | '.' :: r => (true, r.takeWhile Char.isDigit, r.dropWhile Char.isDigit)
    | r => (false, [], r)
  if intPart = [] ∧ (¬ hasDot ∨ fracPart = []) then none
  else
    let mantissa : Rat :=
      ratAdd (digitsToNat intPart : Rat)
        (ratDiv (digitsToNat fracPart : Rat) (ratPowNat 10 fracPart.length))
    match rest2 with
    | [] => some (ratMul sgn mantissa)
    | e :: r =>
        if e = 'e' ∨ e = 'E' then
          let (esgn, r1) : Int × List Char :=
            match r with
            | '+' :: rr => (1, rr)
            | '-' :: rr => (-1, rr)
            | rr => (1, rr)
          let eds := r1.takeWhile Char.isDigit
          let r2 := r1.dropWhile Char.isDigit
          if eds = [] ∨ r2 ≠ [] then none
          else some (ratMul (ratMul sgn mantissa) (ratZPowAux 10 (esgn * (digitsToNat eds : Int))))
        else none

/-- `int(s)`: optional sign followed by digits. -/
def pyParseInt (s : List Char) : Option Int :=
  let (sgn, s1) : Int × List Char :=
    match s with
    | '+' :: r => (1, r)
    | '-' :: r => (-1, r)
    | r => (1, r)
  if s1 ≠ [] ∧ s1.all Char.isDigit then some (sgn * (digitsToNat s1 : Int))
  else none


/-! ### `units_map` and `resolve_unit` -/

/-- `units_map` from the source.  Note the key `"K"` is upper case while
`resolve_unit` lowercases its input before lookup. -/
def units_map : List (List Char × PyVal) :=
  [ (pstr "hbar", .quant 1 ⟨1, 0, 0, 0, 0⟩),
    (pstr "hartree", .quant 1 ⟨0, 1, 0, 0, 0⟩),
    (pstr "angstrom", .quant 1 ⟨0, 0, 1, 0, 0⟩),
    (pstr "au_t", .quant 1 ⟨1, -1, 0, 0, 0⟩),
    (pstr "fs", .quant 1 ⟨0, 0, 0, 1, 0⟩),
    (pstr "K", .quant 1 ⟨0, 0, 0, 0, 1⟩) ]

def lookupUnit (s : List Char) : Option PyVal :=
  (units_map.find? (fun p => p.1 = s)).map (·.2)

/-- `re.match(r"\[(\d+)\]", s)`: a prefix `[digits]` (the rest of the
string is unconstrained); yields the digit group. -/
def placeholderIdx (s : List Char) : Option Nat :=
  match s with
  | '[' :: rest =>
      let ds := rest.takeWhile Char.isDigit
      let rest2 := rest.dropWhile Char.isDigit
      if ds ≠ [] ∧ rest2.head? = some ']' then some (digitsToNat ds) else none
  | _ => none

/-- The `/` loop: `val = vals[0]; for v in vals[1:]: val /= v`. -/
def foldDiv : List PyVal → PyVal
  | [] => .err "ImpossibleEmptySplit"
  | v :: vs => vs.foldl pyDiv v

/-- The `**` / `^` loop:
`val = vals[0]; for v in reversed(vals[1:]): val = val ** v`. -/
def foldPowRev : List PyVal → PyVal
  | [] => .err "ImpossibleEmptySplit"
  | v :: vs => vs.reverse.foldl pyPow v

/-- The `*` loop: `unit = 1; for v in vals: unit *= v` (initial value is
the Python `int` 1). -/
def foldMul (vs : List PyVal) : PyVal := vs.foldl pyMul (.intv 1)

mutual

/-- `resolve_unit(unit_str, parts=[])` from the source, with an explicit
recursion-depth `fuel` (Python would raise `RecursionError` on the inputs
that exhaust it).  The branch order follows the source exactly:
`units_map` lookup, `float()`, empty string, parenthesized groups, split
on `"/"`, `"**"`, `"^"`, `"*"`, `"-1"`, indexed placeholder `[n]`, and
the implicit `None` fall-through. -/
def resolve_unit (fuel : Nat) (unit_str0 : List Char) (parts0 : List PyVal) : PyVal :=
  match fuel with
  | 0 => .err "RecursionError"
  | fuel + 1 =>
    let unit_str := stripSpaces (pyLower unit_str0)
    let parts := parts0
    match lookupUnit unit_str with
    | some v => v
    | none =>
    match parseFloat unit_str with
    | some q => .floatv q
    | none =>
    if unit_str = [] then .intv 1
    else
      let open_p := pyRFindChar '(' unit_str
      if open_p > -1 then
        if pyCountChar '(' unit_str ≠ pyCountChar ')' unit_str then .strv unit_str
        else parenLoop fuel 0 (pyCountChar '(' unit_str) unit_str parts
      else
      let vals := pySplit (pstr "/") unit_str
      if vals.length > 1 then foldDiv (vals.map (fun v => resolve_unit fuel v parts))
      else
      let vals := pySplit (pstr "**") unit_str
      if vals.length > 1 then foldPowRev (vals.map (fun v => resolve_unit fuel v parts))
      else
      let vals := pySplit (pstr "^") unit_str
      if vals.length > 1 then foldPowRev (vals.map (fun v => resolve_unit fuel v parts))
      else
      let vals := pySplit (pstr "*") unit_str
      if vals.length > 1 then foldMul (vals.map (fun v => resolve_unit fuel v parts))
      else
      let vals := pySplit (pstr "-1") unit_str
      if vals.length = 2 then pyDiv (.intv 1) (resolve_unit fuel (vals.headD []) parts)
      else
      match placeholderIdx unit_str with
      | some n =>
          match parts.get? n with
          | some v => v
          | none => .err "IndexError"
      | none => .nonev

/-- The `for n in range(n_groups)` loop of the parenthesis branch: `n`
is the iteration counter (also the placeholder index written into the
string, `"[%d]" % n`) and `rem` the remaining iterations, so the loop
runs for `n = 0, 1, …, n_groups - 1`.  The resolved group is appended to
`parts`; a raised exception in the recursive call propagates.  After the
loop the rewritten string is resolved once more.  Like `resolve_unit`,
each step consumes one unit of fuel, so the mutual recursion is
structural in the fuel (and hence computable by the kernel). -/
def parenLoop : Nat → Nat → Nat → List Char → List PyVal → PyVal
  | 0, _, _, _, _ => .err "RecursionError"
  | fuel + 1, n, rem, unit_str, parts =>
    match rem with
    | 0 => resolve_unit fuel unit_str parts
    | rem + 1 =>
      let open_p := pyRFindChar '(' unit_str
      let part0 := unit_str.drop (open_p + 1).toNat
      let part := pySliceTo (pyFind (pstr ")") part0) part0
      let r := resolve_unit fuel part parts
      if r.isErr then r
      else
        let parts1 := parts ++ [r]
        let unit_str1 :=
          pyReplace ('(' :: part ++ [')']) ('[' :: (Nat.toDigits 10 n) ++ [']']) unit_str
        parenLoop fuel (n + 1) rem unit_str1 parts1

end

/-- `resolve_unit` on a string literal with ample recursion fuel (no
input analysed in this development comes near the bound). -/
def resolveU (s : String) : PyVal := resolve_unit 100 (pstr s) []


/-! ### Cross-file frame correlator -/

/-- One Trajectory record as handed back by the correlator: either the
`k`-th record parsed from an auxiliary file, or a record synthesized from
the inline `COORD` section of the input file (numeric assembly of the
inline branch is abstracted to its inputs). -/
inductive Frame where
  | fileRec (file : String) (k : Nat)
  | inline (lines : List String) (scaled : Bool) (units : PyVal)
deriving DecidableEq, Repr

/-- The auxiliary files of one parse, as data: number of Trajectory
records per file, recorded iteration numbers per file (`iter`), and the
numeric tables of the cell / MD-energies files (`DataTextParser.data`,
`none` when the file is missing). -/
structure TrajEnv where
  nRecords : String → Nat
  iters : String → List Int
  cellData : String → Option (List (List Rat))
  energyData : String → Option (List (List Rat))

/-- Python list indexing `l[i]` (negative indices count from the end;
out of range raises `IndexError`). -/
def pyListGet {α : Type} (l : List α) (i : Int) : Except String α :=
  let j := if i < 0 then i + l.length else i
  if j < 0 then .error "IndexError"
  else
    match l.get? j.toNat with
    | some a => .ok a
    | none => .error "IndexError"

/-- Python `list.index(v)` (`ValueError` when absent). -/
def pyIndex {α : Type} [DecidableEq α] (l : List α) (v : α) : Except String Nat :=
  match l.findIdx? (fun a => a = v) with
  | some i => .ok i
  | none => .error "ValueError"

/-- Python `int // int` (floor division; `ZeroDivisionError` on 0). -/
def pyFloorDiv (a b : Int) : Except String Int :=
  if b = 0 then .error "ZeroDivisionError" else .ok (Int.fdiv a b)

/-- `str.strip()`: drop leading and trailing whitespace. -/
def pyStrip (s : String) : String :=
  ⟨((s.data.dropWhile Char.isWhitespace).reverse.dropWhile Char.isWhitespace).reverse⟩

def strStartsWith (s pre : String) : Bool := pre.data.isPrefixOf s.data

def strEndsWith (s suf : String) : Bool := suf.data.reverse.isPrefixOf s.data.reverse

/-- `os.path.join(a, b)` for the paths appearing here. -/
def osPathJoin (a b : String) : String :=
  if strStartsWith b "/" then b
  else if a = "" then b
  else if strEndsWith a "/" then a ++ b
  else a ++ "/" ++ b

/-- `str.lower()` on a `String`. -/
def pyLowerS (s : String) : String := ⟨pyLower s.data⟩

/-- substring containment (`sub in s`). -/
def strContains (s sub : String) : Bool := (findSub sub.toList s.toList).isSome

/-- `"%s" % v` for `v` an optional string (`None` prints as `"None"`). -/
def pyFormatS (v : Option String) : String := v.getD "None"

/-- Dictionary `get` with default on an association list. -/
def lookupD (m : List (String × String)) (k d : String) : String :=
  match m.find? (fun p => p.1 = k) with
  | some p => p.2
  | none => d

def lookupOpt (m : List (String × String)) (k : String) : Option String :=
  (m.find? (fun p => p.1 = k)).map (fun p => p.2)

/-- Whitespace-run split (Python `str.split()` with no separator). -/
def pyWordsAux : List Char → List Char → List (List Char)
  | [], acc => if acc = [] then [] else [acc.reverse]
  | c :: rest, acc =>
      if c.isWhitespace then
        if acc = [] then pyWordsAux rest [] else acc.reverse :: pyWordsAux rest []
      else pyWordsAux rest (c :: acc)

/-- `frequency, filename = s.split()`: whitespace split with unpacking
into exactly two names (`ValueError` otherwise). -/
def pySplitWs2 (s : String) : Except String (String × String) :=
  match pyWordsAux s.data [] with
  | [a, b] => .ok (⟨a⟩, ⟨b⟩)
  | _ => .error "ValueError"

/-- `int(s)` raising `ValueError` on a malformed literal. -/
def pyIntE (s : String) : Except String Int :=
  match pyParseInt s.toList with
  | some n => .ok n
  | none => .error "ValueError"

/-- State of one `TrajParser` / `DataTextParser` instance: `mainfile`
(initially `None`), `_frequency` (initially 1) and `units`. -/
structure TrajSt where
  mainfile : Option String
  frequency : Int
  units : PyVal
deriving DecidableEq, Repr

def trajInit : TrajSt := ⟨none, 1, .nonev⟩

/-- `TrajParser.get_trajectory(frame)`:
`trajectory[self.iter.index(frame)]` when an explicit recorded-iteration
list is present, else `trajectory[frame // self._frequency]`. -/
def TrajParser.get_trajectory (env : TrajEnv) (tp : TrajSt) (frame : Int) :
    Except String Frame :=
  match tp.mainfile with
  | none => .error "AttributeError"
  | some f =>
      let trajectory := (List.range (env.nRecords f)).map (Frame.fileRec f)
      let iter := env.iters f
      if iter ≠ [] then do
        let i ← pyIndex iter frame
        pyListGet trajectory (i : Int)
      else do
        let q ← pyFloorDiv frame tp.frequency
        pyListGet trajectory q

/-- One `md_step` entry of the output parse tree (only its
`ensemble_type` key matters here). -/
structure MdStepRec where
  ensemble_type : Option String
deriving DecidableEq, Repr

structure MdSec where
  md_step : List MdStepRec
deriving DecidableEq, Repr

/-- The quickstep section of the output parse tree. -/
structure CalcSec where
  molecular_dynamics : Option MdSec
deriving DecidableEq, Repr

/-- The input `FORCE_EVAL/SUBSYS/CELL` section (key presence only). -/
structure CellSec where
  hasA : Bool
  hasB : Bool
  hasC : Bool
  hasABC : Bool
deriving DecidableEq, Repr

/-- The state of a `CP2KParser` instance that the correlator methods
read and mutate.  Parse-tree and input-file lookups are data fields. -/
structure CP2KSt where
  maindir : String
  sampling_method : Option String
  settings_md : List (String × String)
  inp : List (String × String)
  inpCoordKeyword : Option (List String)
  inpCell : Option CellSec
  outCalc : Option CalcSec
  outLatticeVectors : Bool
  step_start : Int
  traj : TrajSt
  vel : TrajSt
  cell : TrajSt
  energyMainfile : Option String
  energyFrequency : Int
  energySteps : List Rat
deriving DecidableEq, Repr

/-- `CP2KParser.get_ensemble_type(frame)`.  Returns `None` when the
sampling is not molecular dynamics, the configured ensemble for frame 0,
and the per-step recorded ensemble otherwise (`md_step[frame - 1]`,
with `""` defaults); `calculation.molecular_dynamics` being `None` makes
the attribute chain raise. -/
def CP2KParser.get_ensemble_type (st : CP2KSt) (frame : Int) :
    Except String (Option String) :=
  if st.sampling_method ≠ some "molecular_dynamics" then .ok none
  else if frame = 0 then .ok (some (lookupD st.settings_md "ensemble_type" ""))
  else
    match st.outCalc with
    | none => .ok (some "")
    | some c =>
        match c.molecular_dynamics with
        | none => .error "AttributeError"
        | some md => do
            let s ← pyListGet md.md_step (frame - 1)
            .ok (some (s.ensemble_type.getD ""))

/-- `CP2KParser._normalize_filename(filename)`: strip a leading `=`,
keep a path whose second character is `/` (the `re.match(r"./", ...)`
test), else prefix the project name. -/
def CP2KParser.normalize_filename (st : CP2KSt) (filename : String) : String :=
  if strStartsWith filename "=" then ⟨filename.data.drop 1⟩
  else if filename.data.get? 1 = some '/' then filename
  else
    let project_name := lookupOpt st.inp "GLOBAL/PROJECT_NAME"
    if filename ≠ "" then pyFormatS project_name ++ "-" ++ filename
    else pyFormatS project_name

def file_extension_map : List (String × String) :=
  [("XYZ", "xyz"), ("XMOL", "xyz"), ("ATOMIC", "xyz"), ("PDB", "pdb"), ("DCD", "dcd")]

/-- `CP2KParser.get_velocities(frame)`.  Mirrors the source: early
return when the output already contains an MD section; first-call setup
from `settings["md"]["velocities"]` (frequency 0 substitutes
`"<project>-vel-1.xyz"` and frequency 1); then
`if self.get_ensemble_type(frame).lower() == "REFTRAJ": frame -= 1`
(note: a lowercased string is compared against an upper-case literal);
negative frames return `None`; the file lookup is wrapped in
`try/except` returning `None`. -/
def CP2KParser.get_velocities (env : TrajEnv) (st0 : CP2KSt) (frame0 : Int) :
    Except String (Option Frame × CP2KSt) := do
  if (match st0.outCalc with
      | some c => c.molecular_dynamics.isSome
      | none => false) then
    return (none, st0)
  let st ←
    match st0.vel.mainfile with
    | some _ => pure st0
    | none => do
        let (fq, fn) ← pySplitWs2 (lookupD st0.settings_md "velocities" "0 none")
        let frequency ← pyIntE fq
        let (frequency, filename) :=
          if frequency = 0 then
            (1, pyFormatS (lookupOpt st0.inp "GLOBAL/PROJECT_NAME") ++ "-vel-1.xyz")
          else (frequency, fn)
        let mf := osPathJoin st0.maindir filename
        let units := resolveU (lookupD st0.inp "MOTION/PRINT/VELOCITIES/UNIT" "bohr*au_t^-1")
        match units with
        | .err m => throw m
        | _ =>
            pure { st0 with
                   vel := ⟨some mf, frequency, units⟩ }
  let e ← CP2KParser.get_ensemble_type st frame0
  let elow ←
    match e with
    | none => Except.error "AttributeError"
    | some s => Except.ok (pyLowerS s)
  let frame := if elow = "REFTRAJ" then frame0 - 1 else frame0
  if frame < 0 then return (none, st)
  match TrajParser.get_trajectory env st.vel frame with
  | .ok r => return (some r, st)
  | .error _ => return (none, st)

/-- `CP2KParser.get_trajectory(frame)`.  Frame 0 is served from the
input file when possible (inline `COORD` or a declared coordinate file);
otherwise first-call setup from `settings["md"]["coordinates"]`
(frequency 0 substitutes frequency 1 and the canonical
`<normalized filename>-pos-1.<fmt>` name), the `REFTRAJ` decrement,
the negative-frame guard, and the `try/except`-wrapped file lookup. -/
def CP2KParser.get_trajectory (env : TrajEnv) (st0 : CP2KSt) (frame0 : Int) :
    Except String (Option Frame × CP2KSt) := do
  let (trajectory, st1) ←
    if frame0 = 0 then do
      let coord := st0.inpCoordKeyword
      let units := resolveU (lookupD st0.inp "FORCE_EVAL/SUBSYS/COORD/UNIT" "angstrom")
      match units with
      | .err m => throw m
      | _ =>
        match coord with
        | none => do
            let coordFilename :=
              pyStrip (lookupD st0.inp "FORCE_EVAL/SUBSYS/TOPOLOGY/COORD_FILE_NAME" "")
            let mf := osPathJoin st0.maindir coordFilename
            let st := { st0 with traj := ⟨some mf, st0.traj.frequency, units⟩ }
            if env.nRecords mf ≠ 0 then
              pure (some (Frame.fileRec mf 0),
                    { st with traj := ⟨none, st.traj.frequency, st.traj.units⟩ })
            else pure ((none : Option Frame), st)
        | some lines => do
            let scaled := strContains (lookupD st0.inp "FORCE_EVAL/SUBSYS/COORD/SCALED" "False") "T"
            pure (some (Frame.inline lines scaled units), st0)
    else pure ((none : Option Frame), st0)
  match trajectory with
  | some t => return (some t, st1)
  | none => do
    let st ←
      match st1.traj.mainfile with
      | some _ => pure st1
      | none => do
          let (fq, fn) ← pySplitWs2 (lookupD st1.settings_md "coordinates" "0 none")
          let frequency ← pyIntE fq
          let (frequency, filename) :=
            if frequency = 0 then
              let f1 := pyStrip (lookupD st1.inp "MOTION/PRINT/TRAJECTORY/FILENAME" "")
              let f2 := CP2KParser.normalize_filename st1 f1
              let tf := pyStrip (lookupD st1.inp "MOTION/PRINT/TRAJECTORY/FORMAT" "XYZ")
              let tf2 := lookupD file_extension_map tf "xyz"
              (1, f2 ++ "-pos-1." ++ tf2)
            else (frequency, fn)
          let units := resolveU (lookupD st1.inp "MOTION/PRINT/TRAJECTORY/UNIT" "angstrom")
          match units with
          | .err m => throw m
          | _ =>
              pure { st1 with
                     traj := ⟨some (osPathJoin st1.maindir filename), frequency, units⟩ }
    let e ← CP2KParser.get_ensemble_type st frame0
    let frame := if e = some "REFTRAJ" then frame0 - 1 else frame0
    if frame < 0 then return (none, st)
    match TrajParser.get_trajectory env st.traj frame with
    | .ok r => return (some r, st)
    | .error _ => return (none, st)


/-- The lattice-vector values the correlator can produce (numeric
assembly abstracted to its provenance): the output-file lattice, the
input `CELL` section via explicit `A`/`B`/`C` vectors or via
`ABC` lengths and angles, or row `k` of the cell file. -/
inductive LatVal where
  | fromOut
  | fromAVecs
  | fromABC
  | fileRow (file : String) (k : Nat)
deriving DecidableEq, Repr

/-- The `frame == 0` block of `get_lattice_vectors`: `.inl v` models
`return v` from the whole method, `.inr ()` falls through to the
auxiliary-file path.  `units` is resolved before the `cell is None`
check, as in the source; a `units` value that is not number- or
unit-like would make the numpy/pint assembly raise. -/
def latFrame0 (st : CP2KSt) (frame : Int) :
    Except String (Sum (Option LatVal) Unit) :=
  if frame ≠ 0 then .ok (.inr ())
  else if st.outLatticeVectors then
    match resolveU (lookupD st.inp "FORCE_EVAL/SUBSYS/COORD/UNIT" "angstrom") with
    | .err m => .error m
    | .strv _ => .error "TypeError"
    | .nonev => .error "TypeError"
    | _ => .ok (.inl (some .fromOut))
  else
    match resolveU (lookupD st.inp "FORCE_EVAL/SUBSYS/COORD/UNIT" "angstrom") with
    | .err m => .error m
    | units =>
        match st.inpCell with
        | none => .ok (.inl none)
        | some cell =>
            if cell.hasA ∧ cell.hasB ∧ cell.hasC then
              match units with
              | .strv _ => .error "TypeError"
              | .nonev => .error "TypeError"
              | _ => .ok (.inl (some .fromAVecs))
            else if cell.hasABC then
              match units with
              | .strv _ => .error "AttributeError"
              | .nonev => .error "AttributeError"
              | _ => .ok (.inl (some .fromABC))
            else .ok (.inr ())

/-- `resolve_unit(self.cell_parser.units)` in the final lookup of
`get_lattice_vectors`: `units` already holds a resolved *value*, and
`resolve_unit` starts with `.lower()`, which raises `AttributeError` on
anything that is not a Python `str`. -/
def resolveUnitOnVal : PyVal → PyVal
  | .strv s => resolve_unit 100 s []
  | _ => .err "AttributeError"

/-- The tail of `get_lattice_vectors` shared by all fall-through paths:
restart-offset shift by `step_start - 1`, `REFTRAJ` decrement, the
`frame % frequency != 0 or frame < 0` guard (before the `try`), and the
`try/except`-wrapped `data[frame // frequency] * resolve_unit(units)`. -/
def latticeLookup (env : TrajEnv) (st : CP2KSt) (frame0 : Int) :
    Except String (Option LatVal × CP2KSt) := do
  let frame1 := frame0 - (st.step_start - 1)
  let e ← CP2KParser.get_ensemble_type st frame1
  let frame := if e = some "REFTRAJ" then frame1 - 1 else frame1
  if st.cell.frequency = 0 then throw "ZeroDivisionError"
  else if Int.emod frame st.cell.frequency ≠ 0 ∨ frame < 0 then return (none, st)
  else
    match st.cell.mainfile with
    | none => return (none, st)
    | some f =>
        match env.cellData f with
        | none => return (none, st)
        | some rows =>
            match pyListGet rows (Int.fdiv frame st.cell.frequency) with
            | .error _ => return (none, st)
            | .ok _ =>
                match resolveUnitOnVal st.cell.units with
                | .err _ => return (none, st)
                | .strv _ => return (none, st)
                | .nonev => return (none, st)
                | _ =>
                    return (some (.fileRow f (Int.fdiv frame st.cell.frequency).toNat), st)

/-- `CP2KParser.get_lattice_vectors(frame)`.  The `fuel` bounds the
self-recursion `return self.get_lattice_vectors(0)` (unbounded in
Python, where pathological states hit `RecursionError`). -/
def CP2KParser.get_lattice_vectors (env : TrajEnv) :
    Nat → CP2KSt → Int → Except String (Option LatVal × CP2KSt)
  | 0, _, _ => .error "RecursionError"
  | fuel + 1, st0, frame0 => do
    let b ← latFrame0 st0 frame0
    match b with
    | .inl v => return (v, st0)
    | .inr () =>
        match st0.cell.mainfile with
        | some _ => latticeLookup env st0 frame0
        | none => do
            let (fq, fn) ← pySplitWs2 (lookupD st0.settings_md "simulation_cell" "0 none")
            let frequency ← pyIntE fq
            let (frequency, filename) :=
              if frequency = 0 then
                (1, pyStrip (lookupD st0.inp "MOTION/PRINT/CELL/FILENAME" ""))
              else (frequency, fn)
            if filename ≠ "" then do
              let units := resolveU (lookupD st0.inp "MOTION/PRINT/TRAJECTORY/UNIT" "angstrom")
              match units with
              | .err m => throw m
              | _ =>
                  let st := { st0 with
                              cell := ⟨some (osPathJoin st0.maindir filename), frequency, units⟩ }
                  latticeLookup env st frame0
            else do
              if st0.sampling_method = some "molecular_dynamics" then do
                let e ← CP2KParser.get_ensemble_type st0 frame0
                let pre ←
                  match e with
                  | none => Except.error "TypeError"
                  | some s => Except.ok (String.mk (pySliceTo 3 s.data))
                if pre = "NPT" then return (none, st0)
                else CP2KParser.get_lattice_vectors env fuel st0 0
              else CP2KParser.get_lattice_vectors env fuel st0 0

/-- Result of `get_md_output`: the empty dict returned on every failure
path, or the selected row of the energies file (the seven stored fields,
unit attachment abstracted). -/
inductive MdRes where
  | emptyDict
  | dictData (step time ekin temp epot cons cpu : Rat)
deriving DecidableEq, Repr

/-- The part of `get_md_output` after first-call setup: the dead
`mainfile is None` re-check, the `REFTRAJ` decrement, the
negative-frame guard, and the `try/except`-wrapped
`data[self._step.index(frame)]` lookup. -/
def mdTail (env : TrajEnv) (st : CP2KSt) (frame0 : Int) :
    Except String (MdRes × CP2KSt) := do
  match st.energyMainfile with
  | none => return (.emptyDict, st)
  | some f => do
      let e ← CP2KParser.get_ensemble_type st frame0
      let frame := if e = some "REFTRAJ" then frame0 - 1 else frame0
      if frame < 0 then return (.emptyDict, st)
      let res : MdRes :=
        match env.energyData f with
        | none => .emptyDict
        | some rows =>
            match st.energySteps.findIdx? (fun q => q = (frame : Rat)) with
            | none => .emptyDict
            | some i =>
                match rows.get? i with
                | none => .emptyDict
                | some row =>
                    match row.get? 0, row.get? 1, row.get? 2, row.get? 3,
                          row.get? 4, row.get? 5, row.get? 6 with
                    | some a, some b, some c, some d, some e2, some f2, some g =>
                        .dictData a b c d e2 f2 g
                    | _, _, _, _, _, _, _ => .emptyDict
      return (res, st)

/-- `CP2KParser.get_md_output(frame)`.  Note the source's default
settings string is `"0, none"` (with a comma) and that a configured
frequency of 0 returns the empty dict immediately, with no filename or
frequency substitution. -/
def CP2KParser.get_md_output (env : TrajEnv) (st0 : CP2KSt) (frame0 : Int) :
    Except String (MdRes × CP2KSt) :=
  match st0.energyMainfile with
  | some _ => mdTail env st0 frame0
  | none => do
      let (fq, fn) ← pySplitWs2 (lookupD st0.settings_md "energies" "0, none")
      let frequency ← pyIntE fq
      if frequency = 0 then return (.emptyDict, st0)
      else do
        let mf := osPathJoin st0.maindir fn
        let steps ←
          match env.energyData mf with
          | some rows => rows.mapM (fun r => pyListGet r 0)
          | none => pure []
        let st := { st0 with
                    energyMainfile := some mf,
                    energyFrequency := frequency,
                    energySteps := steps }
        mdTail env st frame0

/-! ### `parse_calculations` system selection and `InpValue.add` -/

/-- One entry of the `calculations` list in
`parse_configurations_quickstep.parse_calculations`: only its `step`
key matters for system selection (`frame = calculation.get("step", n)`). -/
structure CalcItem where
  step : Option Int
deriving DecidableEq, Repr

/-- The per-calculation system selection of `parse_calculations`: frame
0 is served from the inline atomic coordinates (`sys0`); otherwise
`parse_system(frame)`, and when that yields `None` *and* the entry is
the last of the list, a retry with `frame + 1` (a logged warning, not an
abort). -/
def calcSystem {Sys : Type} (nCalcs : Nat) (parse_system : Int → Option Sys)
    (sys0 : Option Sys) (n : Nat) (c : CalcItem) : Option Sys :=
  let frame : Int := c.step.getD (n : Int)
  if frame = 0 then sys0
  else
    match parse_system frame with
    | some s => some s
    | none => if n = nCalcs - 1 then parse_system (frame + 1) else none

/-- The `for n, calculation in enumerate(calculations)` loop of
`parse_calculations`, restricted to its system-selection effect: `None`
entries are skipped (`continue`) but still occupy their position `n`. -/
def parse_calculations_systems {Sys : Type} (calcs : List (Option CalcItem))
    (parse_system : Int → Option Sys) (sys0 : Option Sys) : List (Option Sys) :=
  calcs.enum.filterMap (fun p =>
    match p.2 with
    | none => none
    | some c => some (calcSystem calcs.length parse_system sys0 p.1 c))

/-- A value stored in an `InpValue` node: an atom (any non-list Python
value, tagged by a string payload) or a Python list. -/
inductive PyObj where
  | atom (v : String)
  | plist (l : List PyObj)

/-- `InpValue.add(key, val)`: a first value under a key is stored as is;
a later add wraps a non-list stored value into a list and appends, and
appends directly when the stored value is already a list.  `_data` is a
dict, modelled as an association list without duplicate keys (update
preserves position, as dict insertion order does). -/
def InpValue.add (data : List (String × PyObj)) (key : String) (val : PyObj) :
    List (String × PyObj) :=
  match data.find? (fun p => p.1 = key) with
  | some _ =>
      data.map (fun p =>
        if p.1 = key then
          (key, match p.2 with
                | .plist l => .plist (l ++ [val])
                | v => .plist [v, val])
        else p)
  | none => data ++ [(key, val)]

def InpValue.lookup (data : List (String × PyObj)) (key : String) : Option PyObj :=
  (data.find? (fun p => p.1 = key)).map (fun p => p.2)

/-- Folding `InpValue.add` over a list of values for one key. -/
def InpValue.addAll (data : List (String × PyObj)) (key : String)
    (vals : List PyObj) : List (String × PyObj) :=
  vals.foldl (fun d v => InpValue.add d key v) data


/-! ### Concrete parse environments and parser states used as scenarios -/

/-- Auxiliary-file data for the scenarios: an xyz trajectory with
records at iterations 0, 2, 4; a velocities file with two records; a
default-named velocities file with one record; a two-record trajectory
file; a two-row cell table; a two-row MD-energies table. -/
def envA : TrajEnv :=
  { nRecords := fun f =>
      if f = "dir/TRAJ.xyz" then 3
      else if f = "dir/vel.xyz" then 2
      else if f = "dir/proj-vel-1.xyz" then 1
      else if f = "dir/T2.xyz" then 2 else 0,
    iters := fun f => if f = "dir/TRAJ.xyz" then [0, 2, 4] else [],
    cellData := fun f => if f = "dir/cellf" then some [[1], [2]] else none,
    energyData := fun f =>
      if f = "dir/e.dat" then some [[0, 1, 2, 3, 4, 5, 6], [2, 7, 8, 9, 10, 11, 12]] else none }

/-- A freshly initialised `CP2KParser` state. -/
def stBase : CP2KSt :=
  { maindir := "dir", sampling_method := none, settings_md := [], inp := [],
    inpCoordKeyword := none, inpCell := none, outCalc := none,
    outLatticeVectors := false, step_start := 1,
    traj := trajInit, vel := trajInit, cell := trajInit,
    energyMainfile := none, energyFrequency := 1, energySteps := [] }

/-- Trajectory settings `"coordinates": "0 none"` with project name
`proj` (the frequency-0 substitution scenario of the spec). -/
def stCoords0 : CP2KSt :=
  { stBase with
    settings_md := [("coordinates", "0 none")]
    inp := [("GLOBAL/PROJECT_NAME", "proj")] }

/-- Velocity settings `"velocities": "0 none"` (frequency-0
substitution), with an explicit velocities unit so that setting up the
parser does not raise. -/
def stVel0 : CP2KSt :=
  { stBase with
    sampling_method := some "molecular_dynamics"
    settings_md := [("velocities", "0 none")]
    inp := [("GLOBAL/PROJECT_NAME", "proj"), ("MOTION/PRINT/VELOCITIES/UNIT", "angstrom/fs")] }

/-- Cell settings `"simulation_cell": "0 none"` with a configured cell
print filename (frequency-0 substitution for the simulation cell). -/
def stCell0 : CP2KSt :=
  { stBase with
    settings_md := [("simulation_cell", "0 none")]
    inp := [("MOTION/PRINT/CELL/FILENAME", "cellf")] }

/-- MD-energies settings `"energies": "0 none"` (configured print
frequency 0). -/
def stEner0 : CP2KSt :=
  { stBase with settings_md := [("energies", "0 none")] }

/-- A molecular-dynamics run whose configured ensemble type is
`REFTRAJ`, with both the velocities and the trajectory parser already
bound to files that have records at index 0. -/
def stReftraj : CP2KSt :=
  { stBase with
    sampling_method := some "molecular_dynamics"
    settings_md := [("velocities", "1 vel.xyz"), ("ensemble_type", "REFTRAJ")]
    inp := [("MOTION/PRINT/VELOCITIES/UNIT", "angstrom/fs")]
    vel := ⟨some "dir/vel.xyz", 1, PyVal.nonev⟩
    traj := ⟨some "dir/TRAJ.xyz", 1, PyVal.nonev⟩ }

/-- The trajectory parser bound to the file with explicit recorded
iterations `[0, 2, 4]`. -/
def stIterSel : CP2KSt :=
  { stBase with traj := ⟨some "dir/TRAJ.xyz", 1, PyVal.nonev⟩ }

/-- All auxiliary parsers bound, each with print frequency 2 (MD
sampling, no output MD section, restart offset 1). -/
def stFreq2 : CP2KSt :=
  { stBase with
    traj := ⟨some "dir/T2.xyz", 2, PyVal.nonev⟩
    vel := ⟨some "dir/T2.xyz", 2, PyVal.nonev⟩
    cell := ⟨some "dir/cellf", 2, PyVal.strv (pstr "angstrom")⟩
    sampling_method := some "molecular_dynamics"
    energyMainfile := some "dir/e.dat"
    energySteps := [0, 2] }

/-! ### Helper lemmas -/

/-- Combining a stored value with a newly added one, as `InpValue.add`
does under an existing key. -/
def addCombine (cur val : PyObj) : PyObj :=
  match cur with
  | .plist l => .plist (l ++ [val])
  | v => .plist [v, val]

theorem InpValue.lookup_add (data : List (String × PyObj)) (key : String) (val : PyObj) :
    InpValue.lookup (InpValue.add data key val) key =
      some (match InpValue.lookup data key with
            | none => val
            | some cur => addCombine cur val) := by
  induction data with
  | nil => simp [InpValue.lookup, InpValue.add]
  | cons p rest ih =>
      by_cases hp : p.1 = key
      · simp [InpValue.lookup, InpValue.add, List.find?, hp, addCombine]
      · by_cases hr : rest.find? (fun q => q.1 = key) = none
        · simp [InpValue.lookup, InpValue.add, List.find?, hp, hr]
        · rcases Option.ne_none_iff_exists.mp hr with ⟨q, hq⟩
          simp [InpValue.lookup, InpValue.add, List.find?, hp, ← hq] at ih ⊢
          exact ih

theorem InpValue.lookup_addAll_plist (vs : List PyObj) :
    ∀ (data : List (String × PyObj)) (key : String) (l : List PyObj),
      InpValue.lookup data key = some (.plist l) →
      InpValue.lookup (InpValue.addAll data key vs) key = some (.plist (l ++ vs)) := by
  induction vs with
  | nil => intro data key l h; simpa [InpValue.addAll] using h
  | cons v vs ih =>
      intro data key l h
      have h1 := InpValue.lookup_add data key v
      rw [h] at h1
      have h2 := ih (InpValue.add data key v) key (l ++ [v]) (by simpa [addCombine] using h1)
      simpa [InpValue.addAll] using h2


theorem pyListGet_range_map {α : Type} (f : Nat → α) (nrec : Nat) (q : Int)
    (hq : 0 ≤ q) (hlt : q.toNat < nrec) :
    pyListGet ((List.range nrec).map f) q = .ok (f q.toNat) := by
  simp only [pyListGet, List.length_map, List.length_range]
  rw [if_neg (not_lt.mpr hq), if_neg (not_lt.mpr hq)]
  simp only [List.get?_eq_getElem?, List.getElem?_map, List.getElem?_range, hlt, if_pos]
  rfl

/-! ### Claim theorems -/

/-- C1 (counterexample): `resolve_unit` *can* raise for malformed unit
input: an expression combining an unknown unit token (`"qq*fs"`) raises
`TypeError` when the multiplication loop hits the `None` returned for
the unknown token, and the placeholder pattern `"[0]"` with no
accumulated groups raises `IndexError`.  This refutes the claim that an
exception can occur only for programmer errors or fatal I/O. -/
theorem C1_resolve_unit_can_raise :
    resolveU "qq*fs" = PyVal.err "TypeError" ∧
    resolveU "[0]" = PyVal.err "IndexError" := by decide

/-- C1 (amended): a *lone* token that is not a known unit name returns
`None`, and an expression whose counts of `(` and `)` differ returns the
original (lowercased, space-stripped) string unresolved; but composite
expressions containing unknown tokens raise `TypeError`, and an
out-of-range placeholder raises `IndexError`. -/
theorem C1_resolve_unit_soft_failures :
    resolveU "unknownunitxyz" = PyVal.nonev ∧
    resolveU "((a" = PyVal.strv (pstr "((a") ∧
    resolveU "qq*fs" = PyVal.err "TypeError" ∧
    resolveU "[0]" = PyVal.err "IndexError" := by decide

/-- C2 (counterexample): an exponent chain is *not* evaluated
right-associatively: `"2**3**2"` resolves to `64 = (2**2)**3`, while the
right-associative reading `2**(3**2)` — which the resolver computes for
the explicitly parenthesized string — is `512`. -/
theorem C2_pow_chain_counterexample :
    resolveU "2**3**2" = PyVal.floatv 64 ∧
    resolveU "2**(3**2)" = PyVal.floatv 512 ∧
    resolveU "2**3**2" ≠ resolveU "2**(3**2)" := by decide

/-- C2 (amended): the `**`/`^` loop folds the reversed exponent list
onto the base from the left: for a three-operand chain the result is
`(a ** c) ** b`, not `a ** (b ** c)`; on `"2**3**2"` this gives 64. -/
theorem C2_pow_chain_fold :
    (∀ a b c : PyVal, foldPowRev [a, b, c] = pyPow (pyPow a c) b) ∧
    resolveU "2**3**2" = PyVal.floatv 64 :=
  ⟨fun _ _ _ => rfl, by decide⟩

/-- C3 (counterexample): `resolve_unit("bohr*au_t^-1")` does not produce
`bohr / au_t`: `"bohr"` has no entry in `units_map`, so resolving it
yields `None`, and the composite expression raises `TypeError` inside
the `*` loop (which runs on the left operand of the `^` split). -/
theorem C3_bohr_au_t_counterexample :
    resolveU "bohr*au_t^-1" = PyVal.err "TypeError" ∧
    resolveU "bohr" = PyVal.nonev := by decide

/-- C3 (amended): for known unit names the resolver does distribute over
a single `/` split (`"hartree/angstrom"` equals
`resolve_unit("hartree") / resolve_unit("angstrom")`); but because the
`^` split precedes the `*` split, `"hbar*fs^-1"` resolves to
`(hbar * fs) ** (-1.0)`, and `"bohr*au_t^-1"` raises because `bohr` is
unknown. -/
theorem C3_homomorphism_instances :
    resolveU "hartree/angstrom" = pyDiv (resolveU "hartree") (resolveU "angstrom") ∧
    resolveU "hbar*fs^-1" =
      pyPow (pyMul (resolveU "hbar") (resolveU "fs")) (PyVal.floatv (-1)) ∧
    resolveU "bohr*au_t^-1" = PyVal.err "TypeError" := by decide

/-- C4 (counterexample): for MD energies a configured print frequency of
0 does *not* substitute a frequency of 1 and a default filename —
`get_md_output` returns the empty dict immediately, leaving the state
unchanged (no mainfile, no frequency update). -/
theorem C4_md_energies_counterexample :
    CP2KParser.get_md_output envA stEner0 0 = .ok (.emptyDict, stEner0) := rfl

/-- C4 (amended): for coordinates, velocities and the simulation cell a
configured print frequency of 0 substitutes a frequency of 1 and a
canonical default filename before lookup — with
`settings = {"coordinates": "0 none"}` and project name `proj` the
trajectory file is `"proj-pos-1.xyz"` and the stored frequency 1, with
`{"velocities": "0 none"}` the file is `"proj-vel-1.xyz"`, and with
`{"simulation_cell": "0 none"}` the configured cell print filename is
used — but for MD energies the lookup instead returns the empty dict
with no substitution. -/
theorem C4_frequency_zero_substitution :
    (CP2KParser.get_trajectory envA stCoords0 1).map
        (fun p => (p.2.traj.mainfile, p.2.traj.frequency)) =
      .ok (some "dir/proj-pos-1.xyz", 1) ∧
    (CP2KParser.get_velocities envA stVel0 0).map
        (fun p => (p.2.vel.mainfile, p.2.vel.frequency)) =
      .ok (some "dir/proj-vel-1.xyz", 1) ∧
    (CP2KParser.get_lattice_vectors envA 10 stCell0 1).map
        (fun p => (p.2.cell.mainfile, p.2.cell.frequency)) =
      .ok (some "dir/cellf", 1) ∧
    CP2KParser.get_md_output envA stEner0 0 = .ok (.emptyDict, stEner0) :=
  ⟨rfl, rfl, rfl, rfl⟩

/-- C5: with the detected ensemble type `REFTRAJ` at frame 0,
`get_velocities` does *not* decrement the frame (its comparison
lowercases the ensemble string and then compares it against the
upper-case literal `"REFTRAJ"`, which can never match) and returns the
record at index 0, whereas `get_trajectory` on the same state applies
the decrement, giving frame `-1` and hence `None`.  This evaluates the
code at the failing input of the claim that every auxiliary lookup
applies the shift. -/
theorem C5_velocities_reftraj_no_shift :
    (CP2KParser.get_velocities envA stReftraj 0).map Prod.fst =
      .ok (some (Frame.fileRec "dir/vel.xyz" 0)) ∧
    (CP2KParser.get_trajectory envA stReftraj 0).map Prod.fst = .ok none :=
  ⟨rfl, rfl⟩

/-- C6: frame selection.  With no recorded-iteration list the lookup
returns the `frame // frequency`-th record of the auxiliary file; with
the explicit iteration list `[0, 2, 4]` requesting frame 2 returns the
second record and requesting the absent frame 1 returns `None` (via the
caught `ValueError`). -/
theorem C6_frame_selection :
    (∀ (env : TrajEnv) (tp : TrajSt) (file : String) (frame : Int),
        tp.mainfile = some file →
        env.iters file = [] →
        0 < tp.frequency →
        0 ≤ frame →
        (Int.fdiv frame tp.frequency).toNat < env.nRecords file →
        TrajParser.get_trajectory env tp frame =
          .ok (Frame.fileRec file (Int.fdiv frame tp.frequency).toNat)) ∧
    (CP2KParser.get_trajectory envA stIterSel 2).map Prod.fst =
      .ok (some (Frame.fileRec "dir/TRAJ.xyz" 1)) ∧
    (CP2KParser.get_trajectory envA stIterSel 1).map Prod.fst = .ok none := by
  refine ⟨?_, rfl, rfl⟩
  intro env tp file frame hmf hit hfreq hframe hlt
  have hq : 0 ≤ Int.fdiv frame tp.frequency := Int.fdiv_nonneg hframe (le_of_lt hfreq)
  simp only [TrajParser.get_trajectory, hmf, hit, pyFloorDiv]
  rw [if_neg (show ¬ tp.frequency = 0 by omega), if_neg (by simp)]
  exact pyListGet_range_map (Frame.fileRec file) _ _ hq hlt

theorem C6_frame_selection_witness :
    ((⟨some "dir/T2.xyz", 2, PyVal.nonev⟩ : TrajSt).mainfile = some "dir/T2.xyz") ∧
    envA.iters "dir/T2.xyz" = [] ∧
    (0 : Int) < 2 ∧ (0 : Int) ≤ 2 ∧
    (Int.fdiv 2 2).toNat < envA.nRecords "dir/T2.xyz" ∧
    TrajParser.get_trajectory envA ⟨some "dir/T2.xyz", 2, PyVal.nonev⟩ 2 =
      .ok (Frame.fileRec "dir/T2.xyz" (Int.fdiv 2 2).toNat) :=
  ⟨rfl, by decide, by decide, by decide, by decide,
   C6_frame_selection.1 envA ⟨some "dir/T2.xyz", 2, PyVal.nonev⟩ "dir/T2.xyz" 2
     rfl (by decide) (by decide) (by decide) (by decide)⟩

/-- C7 (counterexample): a requested frame that is not a multiple of the
configured frequency does *not* make the trajectory lookup return
`None`: with frequency 2, frame 1 returns the `1 // 2 = 0`-th record. -/
theorem C7_nonmultiple_frame_counterexample :
    (CP2KParser.get_trajectory envA stFreq2 1).map Prod.fst =
      .ok (some (Frame.fileRec "dir/T2.xyz" 0)) := rfl

/-- C7 (amended): negative frames fail softly in every lookup
(`None` for trajectory, velocities and lattice vectors; the empty dict
for MD energies); the `frame % frequency != 0` guard exists only in the
lattice-vector lookup (frame 3 at frequency 2 gives `None` there), while
the trajectory lookup returns the `frame // frequency`-th record
instead. -/
theorem C7_guard_behaviour :
    (CP2KParser.get_trajectory envA stFreq2 (-1)).map Prod.fst = .ok none ∧
    (CP2KParser.get_velocities envA stFreq2 (-1)).map Prod.fst = .ok none ∧
    (CP2KParser.get_lattice_vectors envA 10 stFreq2 (-1)).map Prod.fst = .ok none ∧
    (CP2KParser.get_lattice_vectors envA 10 stFreq2 3).map Prod.fst = .ok none ∧
    (CP2KParser.get_md_output envA stFreq2 (-1)).map Prod.fst = .ok .emptyDict ∧
    (CP2KParser.get_trajectory envA stFreq2 1).map Prod.fst =
      .ok (some (Frame.fileRec "dir/T2.xyz" 0)) :=
  ⟨rfl, rfl, rfl, rfl, rfl, rfl⟩

/-- C8: when `parse_system(frame)` yields no system for a non-zero
frame, the correlator retries with `frame + 1` exactly when the entry is
the last of the calculations list, and yields `None` for earlier
entries; in the concrete scenario the last entry (frame 2, no frame of
its own, `parse_system 3` present) is retried while the earlier missing
frame 1 is not. -/
theorem C8_last_frame_retry :
    (∀ (Sys : Type) (nCalcs : Nat) (ps : Int → Option Sys) (sys0 : Option Sys)
        (n : Nat) (c : CalcItem),
        c.step.getD (n : Int) ≠ 0 →
        ps (c.step.getD (n : Int)) = none →
        calcSystem nCalcs ps sys0 n c =
          (if n = nCalcs - 1 then ps (c.step.getD (n : Int) + 1) else none)) ∧
    parse_calculations_systems [some ⟨some 1⟩, some ⟨some 2⟩]
      (fun f => if f = 3 then some 30 else none) (none : Option Nat) =
      [none, some 30] := by
  refine ⟨?_, rfl⟩
  intro Sys nCalcs ps sys0 n c hf hmiss
  simp only [calcSystem, hf, if_neg hf, hmiss]
  simp

theorem C8_last_frame_retry_witness :
    ((⟨some 2⟩ : CalcItem).step.getD ((1 : Nat) : Int) ≠ 0) ∧
    ((fun f => if f = (3 : Int) then some 30 else none)
        ((⟨some 2⟩ : CalcItem).step.getD ((1 : Nat) : Int)) = (none : Option Nat)) ∧
    calcSystem 2 (fun f => if f = (3 : Int) then some 30 else none) (none : Option Nat)
        1 ⟨some 2⟩ =
      (if (1 : Nat) = 2 - 1 then
        (fun f => if f = (3 : Int) then some 30 else none)
          ((⟨some 2⟩ : CalcItem).step.getD ((1 : Nat) : Int) + 1)
      else none) :=
  ⟨by decide, by decide,
   C8_last_frame_retry.1 Nat 2 (fun f => if f = (3 : Int) then some 30 else none)
     (none : Option Nat) 1 ⟨some 2⟩ (by decide) (by decide)⟩

/-- C9: the claimed case-insensitivity fails for the kelvin entry: the
`units_map` key `"K"` exists but is unreachable because `resolve_unit`
lowercases its input, so both `"K"` and `"k"` resolve to `None` rather
than kelvin; for the lower-case-keyed entries, capitalization and
embedded spaces are indeed irrelevant (`"HBar"` and `"h bar"` resolve to
`hbar`). -/
theorem C9_kelvin_entry_unreachable :
    lookupUnit (pstr "K") = some (PyVal.quant 1 ⟨0, 0, 0, 0, 1⟩) ∧
    resolveU "K" = PyVal.nonev ∧
    resolveU "k" = PyVal.nonev ∧
    resolveU "HBar" = PyVal.quant 1 ⟨1, 0, 0, 0, 0⟩ ∧
    resolveU "h bar" = PyVal.quant 1 ⟨1, 0, 0, 0, 0⟩ := by decide

/-- C10: in `InpValue.add`, a first value under a key is stored as a
scalar and every later add under the same key converts the stored value
into a list and appends, so repeated adds accumulate all values in
insertion order, never overwriting: starting from a state where `key` is
absent, adding `v, w₁, …, wₙ` stores `v` alone when n = 0 and the list
`[v, w₁, …, wₙ]` otherwise. -/
theorem C10_repeated_keys_accumulate :
    ∀ (data : List (String × PyObj)) (key : String) (v : String) (vs : List String),
      InpValue.lookup data key = none →
      InpValue.lookup (InpValue.addAll data key (.atom v :: vs.map .atom)) key =
        some (match vs with
              | [] => PyObj.atom v
              | _ :: _ => PyObj.plist (.atom v :: vs.map .atom)) := by
  intro data key v vs h
  match vs with
  | [] =>
      have h1 := InpValue.lookup_add data key (.atom v)
      rw [h] at h1
      simpa [InpValue.addAll] using h1
  | w :: ws =>
      have h1 := InpValue.lookup_add data key (.atom v)
      rw [h] at h1
      have h2 := InpValue.lookup_add (InpValue.add data key (.atom v)) key (.atom w)
      rw [h1] at h2
      have h3 := InpValue.lookup_addAll_plist (ws.map .atom)
        (InpValue.add (InpValue.add data key (.atom v)) key (.atom w)) key
        [.atom v, .atom w] (by simpa [addCombine] using h2)
      simpa [InpValue.addAll] using h3

theorem C10_repeated_keys_accumulate_witness :
    InpValue.lookup [] "k1" = none ∧
    InpValue.lookup (InpValue.addAll [] "k1" [.atom "a", .atom "b", .atom "c"]) "k1" =
      some (PyObj.plist [.atom "a", .atom "b", .atom "c"]) :=
  ⟨rfl, C10_repeated_keys_accumulate [] "k1" "a" ["b", "c"] rfl⟩

end CP2K
